import Mathlib

/-!
Verification of the dispatch / comparison / bulk-execution / benchmark layer
of the go-entitlement-service (package `service`, `internal/service`, and the
gRPC server in `cmd/server/main.go`).

Modelling conventions:
* A Go client call `CheckPermission(ctx, req) (*pb.PermissionResponse, error)`
  is a function `PermissionRequest → Option PermissionResponse × Option String`:
  the first component is the (possibly nil) response pointer, the second the
  (possibly nil) error.  Both components are kept independent, exactly as in Go.
* A nil interface field of `service.Service` is `none`.
* `float64` latencies are modelled as rationals.
* Goroutine completion order is modelled by an explicit list of indices; the
  semaphore ceiling bounds in-flight workers only and never affects which slot
  a worker writes, so it is carried as an (otherwise unused) parameter.
-/

namespace Entitlement

/-- The `pb.Implementation` enum of the protobuf layer
(`IMPLEMENTATION_UNSPECIFIED`, `_SPICEDB`, `_NEO4J`, `_GRAPHQL`, `_BOTH`). -/
inductive Implementation where
  | UNSPECIFIED
  | SPICEDB
  | NEO4J
  | GRAPHQL
  | BOTH
deriving DecidableEq, Repr

/-- `pb.PermissionRequest`: actor, resource, permission and the string-to-string
context map (modelled as an association list, looked up by key). -/
structure PermissionRequest where
  actor : String
  resource : String
  permission : String
  context : List (String × String)
deriving DecidableEq, Repr, Inhabited

/-- `pb.PermissionResponse`: `HasPermission`, `Permissionship` (an `int32`),
`Implementation` (the backend tag), `ResponseTimeMs`, `ErrorMessage`.
The "decision" of the spec is `hasPermission`; the "diagnostic message" is
`errorMessage`; the "backend tag" is `implementation`. -/
structure PermissionResponse where
  hasPermission : Bool
  permissionship : Int
  implementation : Implementation
  responseTimeMs : ℚ
  errorMessage : String
deriving DecidableEq, Repr

/-- A backend client (`SpiceDBClient` / `Neo4jClient` / `GraphQLClient`): one
operation returning a `(*pb.PermissionResponse, error)` pair. -/
def Client : Type :=
  PermissionRequest → Option PermissionResponse × Option String

/-- `service.Service`: the three injected backend clients, each possibly nil. -/
structure Service where
  Spice : Option Client
  Neo4j : Option Client
  GraphQL : Option Client

/-- The hint-parsing prefix of `Service.CheckPermission` (part_000 lines 33-49):
`implementation` defaults to SPICEDB; if the context has an "implementation"
key its value is switched over the four recognised strings, anything else
leaving the default in place. -/
def hintImplementation (ctx : List (String × String)) : Implementation :=
  match ctx.lookup "implementation" with
  | some implStr =>
      if implStr = "spicedb" then Implementation.SPICEDB
      else if implStr = "neo4j" then Implementation.NEO4J
      else if implStr = "graphql" then Implementation.GRAPHQL
      else if implStr = "both" then Implementation.BOTH
      else Implementation.SPICEDB
  | none => Implementation.SPICEDB

/-- The SpiceDB goroutine body of `checkBothImplementations` (part_000 lines
95-102): call the client if configured, otherwise synthesize the
"SpiceDB backend not available" error with a nil result. -/
def Service.spiceOutcome (s : Service) (req : PermissionRequest) :
    Option PermissionResponse × Option String :=
  match s.Spice with
  | some c => c req
  | none => (none, some "SpiceDB backend not available")

/-- The Neo4j goroutine body of `checkBothImplementations` (part_000 lines
104-111). -/
def Service.neo4jOutcome (s : Service) (req : PermissionRequest) :
    Option PermissionResponse × Option String :=
  match s.Neo4j with
  | some c => c req
  | none => (none, some "Neo4j backend not available")

/-- `Service.checkBothImplementations` (part_000 lines 87-163) after both
goroutines have completed: the branch structure on `(spiceErr, neo4jErr)` and
the nil-checks on the two results are reproduced verbatim, including the
fall-through to the final "unexpected state" error. -/
def Service.checkBothImplementations (s : Service) (req : PermissionRequest) :
    Option PermissionResponse × Option String :=
  let sp := s.spiceOutcome req
  let nj := s.neo4jOutcome req
  match sp.2, nj.2 with
  | some eS, some eN =>
      (some { hasPermission := false
              permissionship := 0
              implementation := Implementation.BOTH
              responseTimeMs := 0
              errorMessage :=
                "Both backends unavailable - SpiceDB: " ++ eS ++ ", Neo4j: " ++ eN },
       none)
  | some _, none =>
      match nj.1 with
      | some r =>
          (some { r with
                  implementation := Implementation.BOTH
                  errorMessage :=
                    "SpiceDB unavailable, using Neo4j only: " ++ r.errorMessage },
           none)
      | none => (none, some "unexpected state in both implementations check")
  | none, some _ =>
      match sp.1 with
      | some r =>
          (some { r with
                  implementation := Implementation.BOTH
                  errorMessage :=
                    "Neo4j unavailable, using SpiceDB only: " ++ r.errorMessage },
           none)
      | none => (none, some "unexpected state in both implementations check")
  | none, none =>
      match sp.1, nj.1 with
      | some rs, some _ =>
          (some { rs with implementation := Implementation.BOTH }, none)
      | _, _ => (none, some "unexpected state in both implementations check")

/-- The backend switch of `Service.CheckPermission` (part_000 lines 51-84):
NEO4J and GRAPHQL check their client for nil and otherwise delegate; BOTH
delegates to the comparator; SPICEDB falls through to the default case which
checks `s.Spice`. -/
def Service.dispatch (s : Service) (implementation : Implementation)
    (req : PermissionRequest) : Option PermissionResponse × Option String :=
  match implementation with
  | Implementation.NEO4J =>
      match s.Neo4j with
      | none =>
          (some { hasPermission := false
                  permissionship := 0
                  implementation := Implementation.NEO4J
                  responseTimeMs := 0
                  errorMessage :=
                    "Neo4j backend not available - please ensure Neo4j is running on localhost:7687" },
           none)
      | some c => c req
  | Implementation.GRAPHQL =>
      match s.GraphQL with
      | none =>
          (some { hasPermission := false
                  permissionship := 0
                  implementation := Implementation.GRAPHQL
                  responseTimeMs := 0
                  errorMessage :=
                    "GraphQL backend not available - please ensure GraphQL is running on localhost:4000" },
           none)
      | some c => c req
  | Implementation.BOTH => s.checkBothImplementations req
  | _ =>
      match s.Spice with
      | none =>
          (some { hasPermission := false
                  permissionship := 0
                  implementation := Implementation.SPICEDB
                  responseTimeMs := 0
                  errorMessage :=
                    "SpiceDB backend not available - please ensure SpiceDB is running on localhost:50051" },
           none)
      | some c => c req

/-- `Service.CheckPermission` (part_000 lines 33-84): parse the hint from the
request context, then switch on the selected backend. -/
def Service.CheckPermission (s : Service) (req : PermissionRequest) :
    Option PermissionResponse × Option String :=
  s.dispatch (hintImplementation req.context) req

/-- The client field of the service selected by a single-backend tag. -/
def clientFor (s : Service) : Implementation → Option Client
  | Implementation.SPICEDB => s.Spice
  | Implementation.NEO4J => s.Neo4j
  | Implementation.GRAPHQL => s.GraphQL
  | _ => none

/-- The worker body of `server.CheckBulkPermissions` (main.go lines 73-83):
call the service; on a non-nil error write a synthesized failure response
(Go zero values for the untouched fields) and count an error, otherwise write
the returned (possibly nil) response pointer and count a success.  The first
component is the value written into the slot, the second whether the success
counter (true) or the error counter (false) is incremented. -/
def bulkItem (svc : Service) (req : PermissionRequest) :
    Option PermissionResponse × Bool :=
  match svc.CheckPermission req with
  | (_, some e) =>
      (some { hasPermission := false
              permissionship := 0
              implementation := Implementation.UNSPECIFIED
              responseTimeMs := 0
              errorMessage := e },
       false)
  | (resp, none) => (resp, true)

/-- `server.CheckBulkPermissions` (main.go lines 41-96).  The pre-sized result
slice is a map from index to slot content (initially nil everywhere); `order`
is the order in which the worker goroutines complete, each writing only its
own index and atomically bumping one counter; `maxConcurrency` only bounds how
many workers are in flight at once (the semaphore), so it influences which
completion orders are possible but never what a worker writes.  After the
join barrier the slice is read out in index order. -/
def CheckBulkPermissions (svc : Service) (requests : List PermissionRequest)
    (maxConcurrency : Int) (order : List Nat) :
    List (Option PermissionResponse) × Nat × Nat :=
  if requests.length = 0 then ([], 0, 0)
  else
    let _normalizedConcurrency : Int :=
      if maxConcurrency ≤ 0 then (requests.length : Int) else maxConcurrency
    let slots : Nat → Option PermissionResponse :=
      order.foldl
        (fun acc idx =>
          Function.update acc idx (bulkItem svc (requests.getD idx default)).1)
        (fun _ => none)
    let counts : Nat × Nat :=
      order.foldl
        (fun c idx =>
          if (bulkItem svc (requests.getD idx default)).2 then (c.1 + 1, c.2)
          else (c.1, c.2 + 1))
        (0, 0)
    ((List.range requests.length).map slots, counts.1, counts.2)

/-- `p95Index := int(float64(len(times)) * 0.95)` (main.go line 210).  For
every `int32` count the binary64 computation truncates to exactly
`⌊95·n/100⌋`: the double nearest to 0.95 lies above 0.95 by about 1.1e-17, so
the product differs from the exact value 19n/20 by far less than the 0.05 gap
separating non-integer values of 19n/20 from the next integer, and when 19n/20
is an integer it is itself representable and the product rounds back to it. -/
def p95Index (n : Nat) : Nat := 95 * n / 100

/-- `p99Index := int(float64(len(times)) * 0.99)` (main.go line 211), which
equals `⌊99·n/100⌋` for every `int32` count by the same rounding analysis as
`p95Index`. -/
def p99Index (n : Nat) : Nat := 99 * n / 100

/-- The per-case statistics fields of `pb.BenchmarkResult` computed by
`server.runBenchmarkTest`. -/
structure BenchmarkStats where
  minResponseTimeMs : ℚ
  maxResponseTimeMs : ℚ
  avgResponseTimeMs : ℚ
  p95ResponseTimeMs : ℚ
  p99ResponseTimeMs : ℚ
deriving DecidableEq, Repr

/-- The statistics block of `server.runBenchmarkTest` (main.go lines 199-213):
sort the recorded latencies ascending in place, take the first element as min
and the last as max, the arithmetic mean as avg, and the elements at
`p95Index`/`p99Index` as the percentiles.  Out-of-range indexing would be a
Go panic; the indices are proven in range for every positive count, so the
`getD` fallback is never taken there. -/
def runBenchmarkTestStats (times : List ℚ) : BenchmarkStats :=
  let sorted := times.mergeSort
  { minResponseTimeMs := sorted.getD 0 0
    maxResponseTimeMs := sorted.getD (sorted.length - 1) 0
    avgResponseTimeMs := sorted.sum / (sorted.length : ℚ)
    p95ResponseTimeMs := sorted.getD (p95Index times.length) 0
    p99ResponseTimeMs := sorted.getD (p99Index times.length) 0 }

/-! Concrete evaluators, services and requests used to exercise the theorems
on closed inputs. -/

/-- A granting response with an empty diagnostic message. -/
def respGrantW : PermissionResponse :=
  { hasPermission := true
    permissionship := 2
    implementation := Implementation.SPICEDB
    responseTimeMs := 5
    errorMessage := "" }

/-- A denying response as the Neo4j side would produce it. -/
def respDenyW : PermissionResponse :=
  { hasPermission := false
    permissionship := 1
    implementation := Implementation.NEO4J
    responseTimeMs := 7
    errorMessage := "" }

/-- An evaluator that always grants. -/
def evalGrantW : Client := fun _ => (some respGrantW, none)

/-- An evaluator that always denies. -/
def evalDenyW : Client := fun _ => (some respDenyW, none)

/-- An evaluator whose evaluate call always raises the error "boom". -/
def evalBoomW : Client := fun _ => (none, some "boom")

/-- Only SpiceDB configured, and it raises an error. -/
def svcSpiceErrW : Service :=
  { Spice := some evalBoomW, Neo4j := none, GraphQL := none }

/-- Only SpiceDB configured, and it grants. -/
def svcSpiceOkW : Service :=
  { Spice := some evalGrantW, Neo4j := none, GraphQL := none }

/-- No backend configured at all. -/
def svcNoneW : Service :=
  { Spice := none, Neo4j := none, GraphQL := none }

/-- SpiceDB grants while Neo4j denies: a comparator decision mismatch. -/
def svcMismatchW : Service :=
  { Spice := some evalGrantW, Neo4j := some evalDenyW, GraphQL := none }

/-- The canonical request with no backend hint in its context. -/
def reqNoHintW : PermissionRequest :=
  { actor := "david"
    resource := "acc123"
    permission := "can_download_statement"
    context := [] }

/-- The canonical request with hint "both". -/
def reqHintBothW : PermissionRequest :=
  { actor := "david"
    resource := "acc123"
    permission := "can_download_statement"
    context := [("implementation", "both")] }

/-- The canonical request with hint "spicedb". -/
def reqHintSpiceW : PermissionRequest :=
  { actor := "david"
    resource := "acc123"
    permission := "can_download_statement"
    context := [("implementation", "spicedb")] }

/-- The canonical request with hint "neo4j". -/
def reqHintNeoW : PermissionRequest :=
  { actor := "david"
    resource := "acc123"
    permission := "can_download_statement"
    context := [("implementation", "neo4j")] }

/-- The canonical request with an unrecognized hint string. -/
def reqHintUnknownW : PermissionRequest :=
  { actor := "david"
    resource := "acc123"
    permission := "can_download_statement"
    context := [("implementation", "mongodb")] }

/-! Helper lemmas about sorted latency arrays. -/

theorem sorted_getD_mono (l : List ℚ) (hs : List.Sorted (· ≤ ·) l)
    (i j : Nat) (hij : i ≤ j) (hj : j < l.length) :
    l.getD i 0 ≤ l.getD j 0 := by
  have hi : i < l.length := lt_of_le_of_lt hij hj
  rw [List.getD_eq_getElem l 0 hi, List.getD_eq_getElem l 0 hj]
  have hle : (⟨i, hi⟩ : Fin l.length) ≤ ⟨j, hj⟩ := Fin.mk_le_mk.mpr hij
  simpa using hs.rel_get_of_le hle

theorem sorted_getD_zero_le (l : List ℚ) (hs : List.Sorted (· ≤ ·) l)
    (x : ℚ) (hx : x ∈ l) : l.getD 0 0 ≤ x := by
  obtain ⟨i, hi, rfl⟩ := List.mem_iff_getElem.mp hx
  have h0 : 0 < l.length := lt_of_le_of_lt (Nat.zero_le i) hi
  rw [List.getD_eq_getElem l 0 h0]
  have hle : (⟨0, h0⟩ : Fin l.length) ≤ ⟨i, hi⟩ := Fin.mk_le_mk.mpr (Nat.zero_le i)
  simpa using hs.rel_get_of_le hle

theorem sorted_mem_le_getD_last (l : List ℚ) (hs : List.Sorted (· ≤ ·) l)
    (x : ℚ) (hx : x ∈ l) : x ≤ l.getD (l.length - 1) 0 := by
  obtain ⟨i, hi, rfl⟩ := List.mem_iff_getElem.mp hx
  have h0 : 0 < l.length := lt_of_le_of_lt (Nat.zero_le i) hi
  have hlast : l.length - 1 < l.length := Nat.sub_lt h0 Nat.one_pos
  rw [List.getD_eq_getElem l 0 hlast]
  have hle : (⟨i, hi⟩ : Fin l.length) ≤ ⟨l.length - 1, hlast⟩ :=
    Fin.mk_le_mk.mpr (Nat.le_pred_of_lt hi)
  simpa using hs.rel_get_of_le hle

/-- C10: for every positive iteration count, the percentile indices
`int(float64(n)*0.95)` and `int(float64(n)*0.99)` are strictly smaller than
the length of the sorted latency array (and, being naturals, at least 0), so
the unguarded `times[p95Index]` / `times[p99Index]` lookups of
`runBenchmarkTest` never index out of bounds, including at counts 1 and 2. -/
theorem percentile_indices_in_bounds (times : List ℚ) (h : 1 ≤ times.length) :
    p95Index times.length < times.mergeSort.length
    ∧ p99Index times.length < times.mergeSort.length := by
  have hlen : times.mergeSort.length = times.length :=
    (List.mergeSort_perm times _).length_eq
  rw [hlen]
  constructor
  · rw [p95Index, Nat.div_lt_iff_lt_mul (by norm_num)]
    omega
  · rw [p99Index, Nat.div_lt_iff_lt_mul (by norm_num)]
    omega

/-- Witness for `percentile_indices_in_bounds` at the small counts 1 and 2. -/
theorem percentile_indices_in_bounds_witness :
    (1 ≤ ([5] : List ℚ).length
      ∧ p95Index ([5] : List ℚ).length < ([5] : List ℚ).mergeSort.length
      ∧ p99Index ([5] : List ℚ).length < ([5] : List ℚ).mergeSort.length)
    ∧ (1 ≤ ([5, 7] : List ℚ).length
      ∧ p95Index ([5, 7] : List ℚ).length < ([5, 7] : List ℚ).mergeSort.length
      ∧ p99Index ([5, 7] : List ℚ).length < ([5, 7] : List ℚ).mergeSort.length) :=
  ⟨⟨by decide, percentile_indices_in_bounds [5] (by decide)⟩,
   ⟨by decide, percentile_indices_in_bounds [5, 7] (by decide)⟩⟩

/-- C9: once at least one iteration completed, the statistics of
`runBenchmarkTest` satisfy min ≤ avg ≤ max and min ≤ p95 ≤ p99 ≤ max, where
min/max are the first/last entries of the ascending-sorted latency array, avg
is the arithmetic mean, and p95/p99 sit at indices ⌊0.95·n⌋ and ⌊0.99·n⌋ of
the sorted array. -/
theorem runBenchmarkTestStats_ordered (times : List ℚ) (h : 1 ≤ times.length) :
    ((runBenchmarkTestStats times).minResponseTimeMs
        ≤ (runBenchmarkTestStats times).avgResponseTimeMs
      ∧ (runBenchmarkTestStats times).avgResponseTimeMs
        ≤ (runBenchmarkTestStats times).maxResponseTimeMs)
    ∧ ((runBenchmarkTestStats times).minResponseTimeMs
        ≤ (runBenchmarkTestStats times).p95ResponseTimeMs
      ∧ (runBenchmarkTestStats times).p95ResponseTimeMs
        ≤ (runBenchmarkTestStats times).p99ResponseTimeMs
      ∧ (runBenchmarkTestStats times).p99ResponseTimeMs
        ≤ (runBenchmarkTestStats times).maxResponseTimeMs) := by
  have hsort : List.Sorted (· ≤ ·) times.mergeSort := List.sorted_mergeSort' times
  have hlen : times.mergeSort.length = times.length :=
    (List.mergeSort_perm times _).length_eq
  simp only [runBenchmarkTestStats]
  set l := times.mergeSort with hl
  clear hl
  have hpos : 0 < l.length := by omega
  have hposQ : (0 : ℚ) < (l.length : ℚ) := by exact_mod_cast hpos
  have hp99lt : p99Index times.length < l.length := by
    rw [hlen, p99Index, Nat.div_lt_iff_lt_mul (by norm_num)]
    omega
  have hp95le : p95Index times.length ≤ p99Index times.length := by
    rw [p95Index, p99Index]
    exact Nat.div_le_div_right (Nat.mul_le_mul_right times.length (by norm_num))
  refine ⟨⟨?_, ?_⟩, ?_, ?_, ?_⟩
  · rw [le_div_iff₀ hposQ]
    have hbound : l.length • (l.getD 0 0) ≤ l.sum :=
      List.card_nsmul_le_sum l (l.getD 0 0)
        (fun x hx => sorted_getD_zero_le l hsort x hx)
    calc l.getD 0 0 * (l.length : ℚ)
        = l.length • (l.getD 0 0) := by rw [nsmul_eq_mul]; ring
      _ ≤ l.sum := hbound
  · rw [div_le_iff₀ hposQ]
    have hbound : l.sum ≤ l.length • (l.getD (l.length - 1) 0) :=
      List.sum_le_card_nsmul l _
        (fun x hx => sorted_mem_le_getD_last l hsort x hx)
    calc l.sum
        ≤ l.length • (l.getD (l.length - 1) 0) := hbound
      _ = l.getD (l.length - 1) 0 * (l.length : ℚ) := by rw [nsmul_eq_mul]; ring
  · exact sorted_getD_mono l hsort 0 (p95Index times.length)
      (Nat.zero_le _) (lt_of_le_of_lt hp95le hp99lt)
  · exact sorted_getD_mono l hsort (p95Index times.length)
      (p99Index times.length) hp95le hp99lt
  · exact sorted_getD_mono l hsort (p99Index times.length)
      (l.length - 1) (Nat.le_pred_of_lt hp99lt)
      (Nat.sub_lt hpos Nat.one_pos)

/-- Witness for `runBenchmarkTestStats_ordered` at the latency list [3, 1, 2]. -/
theorem runBenchmarkTestStats_ordered_witness :
    1 ≤ ([3, 1, 2] : List ℚ).length
    ∧ (((runBenchmarkTestStats [3, 1, 2]).minResponseTimeMs
          ≤ (runBenchmarkTestStats [3, 1, 2]).avgResponseTimeMs
        ∧ (runBenchmarkTestStats [3, 1, 2]).avgResponseTimeMs
          ≤ (runBenchmarkTestStats [3, 1, 2]).maxResponseTimeMs)
      ∧ ((runBenchmarkTestStats [3, 1, 2]).minResponseTimeMs
          ≤ (runBenchmarkTestStats [3, 1, 2]).p95ResponseTimeMs
        ∧ (runBenchmarkTestStats [3, 1, 2]).p95ResponseTimeMs
          ≤ (runBenchmarkTestStats [3, 1, 2]).p99ResponseTimeMs
        ∧ (runBenchmarkTestStats [3, 1, 2]).p99ResponseTimeMs
          ≤ (runBenchmarkTestStats [3, 1, 2]).maxResponseTimeMs)) :=
  ⟨by decide, runBenchmarkTestStats_ordered [3, 1, 2] (by decide)⟩

/-! Helper lemmas about the index-addressed result slots and the atomic
counters of the batch executor. -/

theorem bulkSlots_apply_not_mem (svc : Service) (requests : List PermissionRequest)
    (order : List Nat) (acc : Nat → Option PermissionResponse) (i : Nat)
    (h : i ∉ order) :
    order.foldl
      (fun acc idx =>
        Function.update acc idx (bulkItem svc (requests.getD idx default)).1)
      acc i = acc i := by
  induction order generalizing acc with
  | nil => rfl
  | cons a rest ih =>
    simp only [List.foldl_cons]
    have hne : i ≠ a := fun he => h (by simp [he])
    rw [ih _ (fun hm => h (List.mem_cons_of_mem _ hm))]
    exact Function.update_noteq hne _ _

theorem bulkSlots_apply_mem (svc : Service) (requests : List PermissionRequest)
    (order : List Nat) (acc : Nat → Option PermissionResponse) (i : Nat)
    (h : i ∈ order) :
    order.foldl
      (fun acc idx =>
        Function.update acc idx (bulkItem svc (requests.getD idx default)).1)
      acc i = (bulkItem svc (requests.getD i default)).1 := by
  induction order generalizing acc with
  | nil => cases h
  | cons a rest ih =>
    simp only [List.foldl_cons]
    by_cases hm : i ∈ rest
    · exact ih _ hm
    · have hia : i = a := by
        rcases List.mem_cons.mp h with h1 | h2
        · exact h1
        · exact absurd h2 hm
      rw [bulkSlots_apply_not_mem svc requests rest _ i hm]
      subst hia
      exact Function.update_same i _ acc

theorem bulkCounts_sum (svc : Service) (requests : List PermissionRequest)
    (order : List Nat) (c : Nat × Nat) :
    (order.foldl
        (fun c idx =>
          if (bulkItem svc (requests.getD idx default)).2 then (c.1 + 1, c.2)
          else (c.1, c.2 + 1))
        c).1
      + (order.foldl
          (fun c idx =>
            if (bulkItem svc (requests.getD idx default)).2 then (c.1 + 1, c.2)
            else (c.1, c.2 + 1))
          c).2
      = c.1 + c.2 + order.length := by
  induction order generalizing c with
  | nil => simp
  | cons a rest ih =>
    simp only [List.foldl_cons, List.length_cons]
    by_cases hb : (bulkItem svc (requests.getD a default)).2 = true
    · rw [if_pos hb]
      have := ih (c.1 + 1, c.2)
      omega
    · rw [if_neg hb]
      have := ih (c.1, c.2 + 1)
      omega

/-- C2: for every batch, every concurrency ceiling and every order in which
the worker goroutines complete (any permutation of the slot indices), the
response slice of `CheckBulkPermissions` has the input length and its i-th
slot is exactly the response computed from the i-th request, and
successCount + errorCount equals the number of requests. -/
theorem checkBulkPermissions_order_and_counts (svc : Service)
    (requests : List PermissionRequest) (maxConcurrency : Int)
    (order : List Nat) (hperm : order.Perm (List.range requests.length)) :
    (CheckBulkPermissions svc requests maxConcurrency order).1
      = requests.map (fun r => (bulkItem svc r).1)
    ∧ (CheckBulkPermissions svc requests maxConcurrency order).2.1
        + (CheckBulkPermissions svc requests maxConcurrency order).2.2
      = requests.length := by
  by_cases h0 : requests.length = 0
  · have hnil : requests = [] := List.length_eq_zero.mp h0
    subst hnil
    simp [CheckBulkPermissions]
  · have hcount := bulkCounts_sum svc requests order (0, 0)
    have hordlen : order.length = requests.length := by
      rw [hperm.length_eq, List.length_range]
    constructor
    · simp only [CheckBulkPermissions, if_neg h0]
      apply List.ext_getElem
      · simp
      · intro i h1 h2
        have hi : i < requests.length := by simpa using h2
        have hmem : i ∈ order :=
          hperm.mem_iff.mpr (List.mem_range.mpr hi)
        simp only [List.getElem_map, List.getElem_range]
        rw [bulkSlots_apply_mem svc requests order _ i hmem,
          List.getD_eq_getElem requests default hi]
    · simp only [CheckBulkPermissions, if_neg h0]
      omega

/-- Witness for `checkBulkPermissions_order_and_counts`: a batch of three
requests under ceiling 2 whose workers complete in the order 2, 0, 1. -/
theorem checkBulkPermissions_order_and_counts_witness :
    ([2, 0, 1] : List Nat).Perm
        (List.range ([reqNoHintW, reqHintSpiceW, reqNoHintW] : List PermissionRequest).length)
    ∧ ((CheckBulkPermissions svcSpiceOkW [reqNoHintW, reqHintSpiceW, reqNoHintW] 2 [2, 0, 1]).1
        = ([reqNoHintW, reqHintSpiceW, reqNoHintW] : List PermissionRequest).map
            (fun r => (bulkItem svcSpiceOkW r).1)
      ∧ (CheckBulkPermissions svcSpiceOkW [reqNoHintW, reqHintSpiceW, reqNoHintW] 2 [2, 0, 1]).2.1
          + (CheckBulkPermissions svcSpiceOkW [reqNoHintW, reqHintSpiceW, reqNoHintW] 2 [2, 0, 1]).2.2
        = ([reqNoHintW, reqHintSpiceW, reqNoHintW] : List PermissionRequest).length) :=
  ⟨by decide,
   checkBulkPermissions_order_and_counts svcSpiceOkW [reqNoHintW, reqHintSpiceW, reqNoHintW]
     2 [2, 0, 1] (by decide)⟩

/-- C5: when both evaluators succeed, the comparator returns the primary
(SpiceDB) evaluator's response with only the backend tag overwritten to BOTH;
every other field (including the diagnostic message) is unchanged, no error is
returned, and nothing depends on whether the two boolean decisions agree. -/
theorem checkBoth_both_succeeded_primary (svc : Service) (req : PermissionRequest)
    (rs rn : PermissionResponse)
    (hs : svc.spiceOutcome req = (some rs, none))
    (hn : svc.neo4jOutcome req = (some rn, none)) :
    svc.checkBothImplementations req =
      (some { rs with implementation := Implementation.BOTH }, none) := by
  simp [Service.checkBothImplementations, hs, hn]

/-- Witness for `checkBoth_both_succeeded_primary` on a decision mismatch
(SpiceDB grants, Neo4j denies). -/
theorem checkBoth_both_succeeded_primary_witness :
    svcMismatchW.spiceOutcome reqHintBothW = (some respGrantW, none)
    ∧ svcMismatchW.neo4jOutcome reqHintBothW = (some respDenyW, none)
    ∧ svcMismatchW.checkBothImplementations reqHintBothW =
        (some { respGrantW with implementation := Implementation.BOTH }, none) :=
  ⟨rfl, rfl,
   checkBoth_both_succeeded_primary svcMismatchW reqHintBothW respGrantW respDenyW
     rfl rfl⟩

/-- C6: when both sides of the comparator fail (each unconfigured or raising
an error), the result is a decision=false response tagged BOTH whose
diagnostic message embeds both failure texts, and no hard failure is
returned. -/
theorem checkBoth_both_failed_combined (svc : Service) (req : PermissionRequest)
    (sr nr : Option PermissionResponse) (eS eN : String)
    (hs : svc.spiceOutcome req = (sr, some eS))
    (hn : svc.neo4jOutcome req = (nr, some eN)) :
    svc.checkBothImplementations req =
      (some { hasPermission := false
              permissionship := 0
              implementation := Implementation.BOTH
              responseTimeMs := 0
              errorMessage :=
                "Both backends unavailable - SpiceDB: " ++ eS ++ ", Neo4j: " ++ eN },
       none) := by
  simp [Service.checkBothImplementations, hs, hn]

/-- Witness for `checkBoth_both_failed_combined`: no backend configured. -/
theorem checkBoth_both_failed_combined_witness :
    svcNoneW.spiceOutcome reqHintBothW = (none, some "SpiceDB backend not available")
    ∧ svcNoneW.neo4jOutcome reqHintBothW = (none, some "Neo4j backend not available")
    ∧ svcNoneW.checkBothImplementations reqHintBothW =
        (some { hasPermission := false
                permissionship := 0
                implementation := Implementation.BOTH
                responseTimeMs := 0
                errorMessage :=
                  "Both backends unavailable - SpiceDB: "
                    ++ "SpiceDB backend not available"
                    ++ ", Neo4j: " ++ "Neo4j backend not available" },
         none) :=
  ⟨rfl, rfl,
   checkBoth_both_failed_combined svcNoneW reqHintBothW none none
     "SpiceDB backend not available" "Neo4j backend not available" rfl rfl⟩

/-- C3: when exactly one side of the comparator fails (unconfigured or raising
an error) and the other succeeds, the comparator returns the succeeding side's
response with the backend tag overwritten to BOTH and the diagnostic message
rewritten to note the failing side was skipped and the other is used alone. -/
theorem checkBoth_one_side_failed (svc : Service) (req : PermissionRequest) :
    (∀ (sr : Option PermissionResponse) (e : String) (r : PermissionResponse),
      svc.spiceOutcome req = (sr, some e) →
      svc.neo4jOutcome req = (some r, none) →
      svc.checkBothImplementations req =
        (some { r with
                implementation := Implementation.BOTH
                errorMessage :=
                  "SpiceDB unavailable, using Neo4j only: " ++ r.errorMessage },
         none))
    ∧ (∀ (nr : Option PermissionResponse) (e : String) (r : PermissionResponse),
      svc.neo4jOutcome req = (nr, some e) →
      svc.spiceOutcome req = (some r, none) →
      svc.checkBothImplementations req =
        (some { r with
                implementation := Implementation.BOTH
                errorMessage :=
                  "Neo4j unavailable, using SpiceDB only: " ++ r.errorMessage },
         none)) := by
  constructor
  · intro sr e r hs hn
    simp [Service.checkBothImplementations, hs, hn]
  · intro nr e r hn hs
    simp [Service.checkBothImplementations, hs, hn]

/-- Witness for `checkBoth_one_side_failed`: SpiceDB grants while Neo4j is
unconfigured (the spec's scenario 3). -/
theorem checkBoth_one_side_failed_witness :
    svcSpiceOkW.neo4jOutcome reqHintBothW = (none, some "Neo4j backend not available")
    ∧ svcSpiceOkW.spiceOutcome reqHintBothW = (some respGrantW, none)
    ∧ svcSpiceOkW.checkBothImplementations reqHintBothW =
        (some { respGrantW with
                implementation := Implementation.BOTH
                errorMessage :=
                  "Neo4j unavailable, using SpiceDB only: " ++ respGrantW.errorMessage },
         none) :=
  ⟨rfl, rfl,
   (checkBoth_one_side_failed svcSpiceOkW reqHintBothW).2 none
     "Neo4j backend not available" respGrantW rfl rfl⟩

/-- C7: a hint selecting a single unconfigured evaluator yields, with no
error, a synthesized response: decision=false, backend tag the requested
backend, and a "not available" message telling how to provision the backend. -/
theorem checkPermission_unconfigured_backend (svc : Service)
    (req : PermissionRequest) (impl : Implementation)
    (hsingle : impl = Implementation.SPICEDB ∨ impl = Implementation.NEO4J
      ∨ impl = Implementation.GRAPHQL)
    (hhint : hintImplementation req.context = impl)
    (hnone : clientFor svc impl = none) :
    ∃ (resp : PermissionResponse) (pre post : String),
      svc.CheckPermission req = (some resp, none)
      ∧ resp.hasPermission = false
      ∧ resp.implementation = impl
      ∧ resp.errorMessage = pre ++ "not available" ++ post := by
  rcases hsingle with h | h | h <;> subst h <;> simp only [clientFor] at hnone
  · refine ⟨{ hasPermission := false
              permissionship := 0
              implementation := Implementation.SPICEDB
              responseTimeMs := 0
              errorMessage :=
                "SpiceDB backend not available - please ensure SpiceDB is running on localhost:50051" },
      "SpiceDB backend ",
      " - please ensure SpiceDB is running on localhost:50051", ?_, rfl, rfl, by decide⟩
    rw [Service.CheckPermission, hhint]
    simp [Service.dispatch, hnone]
  · refine ⟨{ hasPermission := false
              permissionship := 0
              implementation := Implementation.NEO4J
              responseTimeMs := 0
              errorMessage :=
                "Neo4j backend not available - please ensure Neo4j is running on localhost:7687" },
      "Neo4j backend ",
      " - please ensure Neo4j is running on localhost:7687", ?_, rfl, rfl, by decide⟩
    rw [Service.CheckPermission, hhint]
    simp [Service.dispatch, hnone]
  · refine ⟨{ hasPermission := false
              permissionship := 0
              implementation := Implementation.GRAPHQL
              responseTimeMs := 0
              errorMessage :=
                "GraphQL backend not available - please ensure GraphQL is running on localhost:4000" },
      "GraphQL backend ",
      " - please ensure GraphQL is running on localhost:4000", ?_, rfl, rfl, by decide⟩
    rw [Service.CheckPermission, hhint]
    simp [Service.dispatch, hnone]

/-- Witness for `checkPermission_unconfigured_backend`: hint "neo4j" with only
SpiceDB configured (the spec's scenario 2, with C for Neo4j). -/
theorem checkPermission_unconfigured_backend_witness :
    (Implementation.NEO4J = Implementation.SPICEDB
      ∨ Implementation.NEO4J = Implementation.NEO4J
      ∨ Implementation.NEO4J = Implementation.GRAPHQL)
    ∧ hintImplementation reqHintNeoW.context = Implementation.NEO4J
    ∧ clientFor svcSpiceOkW Implementation.NEO4J = none
    ∧ ∃ (resp : PermissionResponse) (pre post : String),
        svcSpiceOkW.CheckPermission reqHintNeoW = (some resp, none)
        ∧ resp.hasPermission = false
        ∧ resp.implementation = Implementation.NEO4J
        ∧ resp.errorMessage = pre ++ "not available" ++ post :=
  ⟨Or.inr (Or.inl rfl), by decide, rfl,
   checkPermission_unconfigured_backend svcSpiceOkW reqHintNeoW
     Implementation.NEO4J (Or.inr (Or.inl rfl)) (by decide) rfl⟩

/-- C8: a missing or unrecognized "implementation" hint makes the router fall
back to SpiceDB, and the dispatch decision is a function of the parsed hint
value alone (CheckPermission is exactly dispatch applied to the parsed
hint). -/
theorem checkPermission_default_fallback (svc : Service) (req : PermissionRequest)
    (h : req.context.lookup "implementation" = none
      ∨ ∃ v, req.context.lookup "implementation" = some v
          ∧ v ≠ "spicedb" ∧ v ≠ "neo4j" ∧ v ≠ "graphql" ∧ v ≠ "both") :
    hintImplementation req.context = Implementation.SPICEDB
    ∧ svc.CheckPermission req = svc.dispatch Implementation.SPICEDB req
    ∧ svc.CheckPermission req = svc.dispatch (hintImplementation req.context) req := by
  have hh : hintImplementation req.context = Implementation.SPICEDB := by
    rcases h with h | ⟨v, hv, h1, h2, h3, h4⟩
    · simp [hintImplementation, h]
    · simp [hintImplementation, hv, h1, h2, h3, h4]
  exact ⟨hh, by rw [Service.CheckPermission, hh], rfl⟩

/-- Witness for `checkPermission_default_fallback` at the unrecognized hint
string "mongodb". -/
theorem checkPermission_default_fallback_witness :
    (reqHintUnknownW.context.lookup "implementation" = none
      ∨ ∃ v, reqHintUnknownW.context.lookup "implementation" = some v
          ∧ v ≠ "spicedb" ∧ v ≠ "neo4j" ∧ v ≠ "graphql" ∧ v ≠ "both")
    ∧ (hintImplementation reqHintUnknownW.context = Implementation.SPICEDB
      ∧ svcSpiceOkW.CheckPermission reqHintUnknownW
          = svcSpiceOkW.dispatch Implementation.SPICEDB reqHintUnknownW
      ∧ svcSpiceOkW.CheckPermission reqHintUnknownW
          = svcSpiceOkW.dispatch (hintImplementation reqHintUnknownW.context)
              reqHintUnknownW) :=
  ⟨Or.inr ⟨"mongodb", rfl, by decide, by decide, by decide, by decide⟩,
   checkPermission_default_fallback svcSpiceOkW reqHintUnknownW
     (Or.inr ⟨"mongodb", rfl, by decide, by decide, by decide, by decide⟩)⟩

/-- C1 is false on the code: with the hint selecting the configured SpiceDB
evaluator and that evaluator raising "boom", `CheckPermission` returns the
pair (nil, error "boom") - a hard failure - rather than a decision=false
response carrying the error text. -/
theorem checkPermission_error_not_recovered_cx :
    hintImplementation reqNoHintW.context = Implementation.SPICEDB
    ∧ (svcSpiceErrW.Spice).isSome = true
    ∧ svcSpiceErrW.CheckPermission reqNoHintW = (none, some "boom")
    ∧ (svcSpiceErrW.CheckPermission reqNoHintW).2 ≠ none := by
  decide

/-- C1 (amended): for a hint selecting a configured single evaluator, route
returns that evaluator's (response, error) pair unchanged; in particular a
raised evaluator error is surfaced as a non-nil error to the Router's caller
(recovery of evaluator errors into decision=false responses happens only in
the bulk and streaming wrappers of the server layer, not in the Router). -/
theorem checkPermission_propagates_selected_evaluator (svc : Service)
    (req : PermissionRequest) (impl : Implementation) (c : Client)
    (hsingle : impl = Implementation.SPICEDB ∨ impl = Implementation.NEO4J
      ∨ impl = Implementation.GRAPHQL)
    (hhint : hintImplementation req.context = impl)
    (hc : clientFor svc impl = some c) :
    svc.CheckPermission req = c req := by
  rcases hsingle with h | h | h <;> subst h <;> simp only [clientFor] at hc <;>
    rw [Service.CheckPermission, hhint] <;> simp [Service.dispatch, hc]

/-- Witness for `checkPermission_propagates_selected_evaluator`: the erroring
SpiceDB evaluator's pair (nil, "boom") is handed through unchanged. -/
theorem checkPermission_propagates_selected_evaluator_witness :
    (Implementation.SPICEDB = Implementation.SPICEDB
      ∨ Implementation.SPICEDB = Implementation.NEO4J
      ∨ Implementation.SPICEDB = Implementation.GRAPHQL)
    ∧ hintImplementation reqNoHintW.context = Implementation.SPICEDB
    ∧ clientFor svcSpiceErrW Implementation.SPICEDB = some evalBoomW
    ∧ svcSpiceErrW.CheckPermission reqNoHintW = evalBoomW reqNoHintW :=
  ⟨Or.inl rfl, rfl, rfl,
   checkPermission_propagates_selected_evaluator svcSpiceErrW reqNoHintW
     Implementation.SPICEDB evalBoomW (Or.inl rfl) rfl rfl⟩

/-- C4 is false on the code: with only SpiceDB configured (granting with an
empty message), hint "both" does not return the hint="spicedb" response merely
retagged BOTH - the diagnostic message is additionally rewritten to note that
Neo4j was skipped. -/
theorem checkBoth_not_route_retagged_cx :
    svcSpiceOkW.CheckPermission reqHintSpiceW = (some respGrantW, none)
    ∧ svcSpiceOkW.CheckPermission reqHintBothW
        ≠ (some { respGrantW with implementation := Implementation.BOTH }, none)
    ∧ svcSpiceOkW.CheckPermission reqHintBothW =
        (some { respGrantW with
                implementation := Implementation.BOTH
                errorMessage := "Neo4j unavailable, using SpiceDB only: " },
         none) := by
  decide

/-- C4 (amended): with only SpiceDB configured and the evaluator succeeding
(and answering the hint=BOTH and hint=A variants of the request alike), route
with hint=BOTH returns the same response as route with hint=A except that the
backend tag is BOTH and the diagnostic message is prefixed with the note that
Neo4j was unavailable and SpiceDB used alone. -/
theorem checkBoth_only_spicedb_configured (svc : Service) (c : Client)
    (req reqA : PermissionRequest) (resp : PermissionResponse)
    (hsvc : svc.Spice = some c) (hneo : svc.Neo4j = none)
    (hhint : hintImplementation req.context = Implementation.BOTH)
    (hhintA : hintImplementation reqA.context = Implementation.SPICEDB)
    (hsame : c req = c reqA)
    (hok : c reqA = (some resp, none)) :
    svc.CheckPermission reqA = (some resp, none)
    ∧ svc.CheckPermission req =
        (some { resp with
                implementation := Implementation.BOTH
                errorMessage :=
                  "Neo4j unavailable, using SpiceDB only: " ++ resp.errorMessage },
         none) := by
  constructor
  · rw [Service.CheckPermission, hhintA]
    simp [Service.dispatch, hsvc, hok]
  · rw [Service.CheckPermission, hhint]
    have hs : svc.spiceOutcome req = (some resp, none) := by
      simp [Service.spiceOutcome, hsvc, hsame, hok]
    have hn : svc.neo4jOutcome req = (none, some "Neo4j backend not available") := by
      simp [Service.neo4jOutcome, hneo]
    simp [Service.dispatch, Service.checkBothImplementations, hs, hn]

/-- Witness for `checkBoth_only_spicedb_configured` at the granting evaluator
and the canonical request. -/
theorem checkBoth_only_spicedb_configured_witness :
    svcSpiceOkW.Spice = some evalGrantW
    ∧ svcSpiceOkW.Neo4j = none
    ∧ hintImplementation reqHintBothW.context = Implementation.BOTH
    ∧ hintImplementation reqHintSpiceW.context = Implementation.SPICEDB
    ∧ evalGrantW reqHintBothW = evalGrantW reqHintSpiceW
    ∧ evalGrantW reqHintSpiceW = (some respGrantW, none)
    ∧ (svcSpiceOkW.CheckPermission reqHintSpiceW = (some respGrantW, none)
      ∧ svcSpiceOkW.CheckPermission reqHintBothW =
          (some { respGrantW with
                  implementation := Implementation.BOTH
                  errorMessage :=
                    "Neo4j unavailable, using SpiceDB only: "
                      ++ respGrantW.errorMessage },
           none)) :=
  ⟨rfl, rfl, by decide, by decide, rfl, rfl,
   checkBoth_only_spicedb_configured svcSpiceOkW evalGrantW reqHintBothW
     reqHintSpiceW respGrantW rfl rfl (by decide) (by decide) rfl rfl⟩

end Entitlement
